import Mathlib

/-!
Verification of the request/response transport layer of the ResumeMiner repository.

The embedding covers:
* `request.py` — `Requester.make_request` (authentication dispatch by class name),
  `Requester._parse_response` (response classification by content type, error raising,
  cast dispatch) and `Requester._parse_requests_code_msg` (the error mapper over the
  parsed JSON body);
* `aiagentplatformpy/chat/__init__.py` — `_chat_stream_handler`, the per-frame decoder
  of the chat event stream.

Python dictionaries parsed from JSON are modelled as association lists; raising an
exception is modelled with `Except`; the fixed set of PKCE auth-failure identifiers
(defined in `aiagentplatformpy/exception.py`, which is not among the provided sources)
is a parameter `pkceEnums : List String` of every function that consults it.
-/

namespace ResumeMiner

/-- JSON-like structured values, as produced by `response.json()` in `request.py`.
Python `None` and JSON `null` are identified, because `json.loads` maps JSON `null`
to Python `None`. -/
inductive JsonValue where
  | null
  | bool (b : Bool)
  | int (n : Int)
  | str (s : String)
  | arr (elems : List JsonValue)
  | obj (fields : List (String × JsonValue))

/-- Lookup of a key in an association list of JSON object fields. -/
def lookupField : List (String × JsonValue) → String → Option JsonValue
  | [], _ => none
  | kv :: rest, key => if kv.1 = key then some kv.2 else lookupField rest key

/-- Field access on a JSON value: `some` the field value when the value is an object
containing the key, `none` otherwise. -/
def JsonValue.getField : JsonValue → String → Option JsonValue
  | .obj fs, key => lookupField fs key
  | _, _ => none

/-- Python `key in body` for a dict body.  (For a non-container body Python would raise
`TypeError`; every theorem below therefore restricts its body to objects, which is the
only shape the source ever receives from `response.json()` on the paths claimed.) -/
def JsonValue.containsKey (v : JsonValue) (key : String) : Bool :=
  (v.getField key).isSome

/-- Python `body.get(key)`: the field value, or `None` when absent. -/
def JsonValue.get (v : JsonValue) (key : String) : JsonValue :=
  (v.getField key).getD .null

/-- Whether a JSON value is an object. -/
def JsonValue.isObj : JsonValue → Bool
  | .obj _ => true
  | _ => false

/-- Whether a JSON value is the empty string, mirroring the Python comparison
`x == ""` (true only for the string `""`; any non-string compares unequal). -/
def JsonValue.isEmptyStr : JsonValue → Bool
  | .str "" => true
  | _ => false

/-- Python truthiness of a JSON value, used by the `or` coalescing in
`_parse_requests_code_msg`. -/
def JsonValue.truthy : JsonValue → Bool
  | .null => false
  | .bool b => b
  | .int n => n != 0
  | .str s => s != ""
  | .arr xs => !xs.isEmpty
  | .obj fs => !fs.isEmpty

/-- Python `a or b` on JSON values. -/
def pyOr (a b : JsonValue) : JsonValue :=
  if a.truthy then a else b

/-- Errors the embedded code can raise. `apiError` is `AiAgentPlatformAPIError(code,
msg, logid)`; `pkceAuthError` is `AiAgentPlatformPKCEAuthError(type, logid)`;
`valueError`, `keyError` and `typeError` are the built-in Python exceptions;
`validationError` stands for a pydantic validation failure; `jsonDecodeError` for a
`json.loads` failure; `streamError` for the bare `Exception` raised by
`_chat_stream_handler` on an inner `error` event (it carries the frame payload). -/
inductive ApiErr where
  | apiError (code : Option Int) (msg : JsonValue) (logid : Option String)
  | pkceAuthError (errType : String) (logid : Option String)
  | valueError
  | keyError (key : String)
  | typeError
  | validationError
  | jsonDecodeError
  | streamError (payload : JsonValue)

/-- Python subscript `body[key]`: `KeyError` when the key is absent, `TypeError`
when the value is not a dict. -/
def JsonValue.item : JsonValue → String → Except ApiErr JsonValue
  | .obj fs, key =>
    match lookupField fs key with
    | some v => .ok v
    | none => .error (.keyError key)
  | _, _ => .error .typeError

/-- Python `int(x)` on a JSON value: identity on ints, `True`/`False` to `1`/`0`,
decimal parse of strings, `ValueError`/`TypeError` (not distinguished here) on
everything else. -/
def pyInt : JsonValue → Except ApiErr Int
  | .int n => .ok n
  | .bool b => .ok (if b then 1 else 0)
  | .str s =>
    match s.toInt? with
    | some n => .ok n
    | none => .error .valueError
  | _ => .error .valueError

/-- Python `x in enums` where `enums` is a collection of strings: membership holds
only when `x` is a string occurring in the collection. -/
def jsonStrMem (v : JsonValue) (enums : List String) : Bool :=
  match v with
  | .str s => enums.contains s
  | _ => false

/-- Whether `needle` is an initial segment of `hay`. -/
def leadsList : List Char → List Char → Bool
  | [], _ => true
  | _ :: _, [] => false
  | a :: as, b :: bs => a == b && leadsList as bs

/-- Whether `needle` occurs contiguously inside `hay`. -/
def occursIn (needle : List Char) : List Char → Bool
  | [] => leadsList needle []
  | b :: bs => leadsList needle (b :: bs) || occursIn needle bs

/-- Python substring test `needle in hay` on strings. -/
def strContains (hay needle : String) : Bool :=
  occursIn needle.data hay.data

/-- ASCII lower-casing of a string, modelling Python `str.lower()` on the ASCII
header values the source inspects. -/
def strToLower (s : String) : String :=
  String.mk (s.data.map Char.toLower)

/-- Raw HTTP response as `_parse_response` and `_parse_requests_code_msg` observe it:
the `content-type` and `x-tt-logid` headers, the result of `response.json()`
(`Except.error` when the body is not parseable JSON), the integer status code and the
raw response text. -/
structure RawResponse where
  contentType : Option String
  logid : Option String
  body : Except Unit JsonValue
  status : Int
  text : String

/-- Lower-cased content type, mirroring
`response.headers.get("content-type", "").lower()` at `request.py:386`. -/
def respContentType (response : RawResponse) : String :=
  strToLower (response.contentType.getD "")

/-- Rules 5 and 6 of `_parse_requests_code_msg` (`request.py:465-467`): the two-level
unwrap for the literal data-field path `"data.data"`, else the whole body. -/
def parseCodeMsgDataData (data_field : String) (body : JsonValue) :
    Except ApiErr (Option Int × JsonValue × JsonValue) :=
  if data_field = "data.data" then
    match body.item "data" with
    | .error e => .error e
    | .ok inner =>
      match inner.item "data" with
      | .error e => .error e
      | .ok v => .ok (some 0, .str "", v)
  else .ok (some 0, .str "", body)

/-- Rule 4 of `_parse_requests_code_msg` (`request.py:442-464`): success extraction
when the body contains the data field or a `debug_url` field. -/
def parseCodeMsgRule4 (data_field : String) (body : JsonValue) :
    Except ApiErr (Option Int × JsonValue × JsonValue) :=
  if body.containsKey data_field || body.containsKey "debug_url" then
    if body.containsKey "first_id" then
      match body.item "first_id" with
      | .error e => .error e
      | .ok firstId =>
        match body.item "has_more" with
        | .error e => .error e
        | .ok hasMore =>
          match body.item "last_id" with
          | .error e => .error e
          | .ok lastId =>
            match body.item "data" with
            | .error e => .error e
            | .ok items =>
              .ok (some 0, .str "",
                .obj [("first_id", firstId), ("has_more", hasMore),
                      ("last_id", lastId), ("items", items)])
    else if body.containsKey "debug_url" then
      .ok (some 0, .str "",
        .obj [("data", body.get data_field),
              ("debug_url", pyOr (body.get "debug_url") (.str "")),
              ("execute_id", pyOr (body.get "execute_id") .null)])
    else
      match body.item data_field with
      | .error e => .error e
      | .ok d => .ok (some 0, .str "", d)
  else parseCodeMsgDataData data_field body

/-- Rules 2 and 3 of `_parse_requests_code_msg` (`request.py:438-441`): the
`error_code` rule (a recognized PKCE auth-failure identifier) and the non-empty
`error_message` rule. -/
def parseCodeMsgRule23 (pkceEnums : List String) (data_field : String)
    (body : JsonValue) : Except ApiErr (Option Int × JsonValue × JsonValue) :=
  if body.containsKey "error_code" && jsonStrMem (body.get "error_code") pkceEnums then
    .ok (none, body.get "error_code", .null)
  else if body.containsKey "error_message" && !(body.get "error_message").isEmptyStr then
    .ok (none, body.get "error_message", .null)
  else parseCodeMsgRule4 data_field body

/-- Rules applied to the parsed body by `_parse_requests_code_msg`
(`request.py:436-467`), starting with the `code`/`msg` rule: when the body contains
both a `code` and a `msg` field and `int(body["code"]) > 0`, return that code, the
message and `body.get(data_field)`. -/
def parseBodyCodeMsg (pkceEnums : List String) (data_field : String)
    (body : JsonValue) : Except ApiErr (Option Int × JsonValue × JsonValue) :=
  if body.containsKey "code" && body.containsKey "msg" then
    match pyInt (body.get "code") with
    | .error e => .error e
    | .ok c =>
      if c > 0 then .ok (some c, body.get "msg", body.get data_field)
      else parseCodeMsgRule23 pkceEnums data_field body
  else parseCodeMsgRule23 pkceEnums data_field body

/-- Embedding of `Requester._parse_requests_code_msg` (`request.py:422-467`).  The
`method` and `url` parameters of the source only feed commented-out logging and are
omitted.  When `response.json()` fails, the source raises
`AiAgentPlatformAPIError(response.status_code, response.text,
response.headers.get("x-tt-logid"))` (`request.py:429-434`). -/
def parse_requests_code_msg (pkceEnums : List String) (response : RawResponse)
    (data_field : String) : Except ApiErr (Option Int × JsonValue × JsonValue) :=
  match response.body with
  | .error _ => .error (.apiError (some response.status) (.str response.text) response.logid)
  | .ok body => parseBodyCodeMsg pkceEnums data_field body

/-- Validator for one record type, standing for `item_cast.model_validate` of a
pydantic model class (the pydantic library is external to the repository, so the
validation function itself is a parameter). -/
structure Caster (α : Type) where
  validate : JsonValue → Except ApiErr α

/-- The shapes the `cast` argument of `Requester._parse_response` can take:
`Type[T]`, `List[Type[T]]`, `Type[ListResponse[T]]`, `Type[FileHTTPResponse]` or
`None` (`request.py:380`). -/
inductive Cast (α : Type) where
  | single (c : Caster α)
  | listOf (c : Caster α)
  | listResponse (c : Caster α)
  | fileCast
  | noneCast

/-- Results `_parse_response` can return: a stream handle (sync or async iterator),
a `FileHTTPResponse`, a validated list, a validated `ListResponse`, the raw extracted
payload, or `None`. -/
inductive RespResult (α : Type) where
  | stream (isAsync : Bool)
  | file
  | listResult (xs : List α)
  | listResponseResult (xs : List α)
  | raw (data : JsonValue)
  | noneResult

/-- Python iteration over the extracted payload in the list-cast branches
(`request.py:409,412`): elements of a list, keys of a dict, characters of a string;
`TypeError` otherwise. -/
def jsonElems : JsonValue → Except ApiErr (List JsonValue)
  | .arr xs => .ok xs
  | .obj fs => .ok (fs.map fun kv => .str kv.1)
  | .str s => .ok (s.data.map fun c => .str (String.mk [c]))
  | _ => .error .typeError

/-- Left-to-right validation of every element, failing at the first invalid element,
exactly as the list comprehension `[item_cast.model_validate(item) for item in data]`
does (`request.py:409,412`). -/
def validateAll (f : JsonValue → Except ApiErr α) : List JsonValue → Except ApiErr (List α)
  | [] => .ok []
  | x :: xs =>
    match f x with
    | .error e => .error e
    | .ok a =>
      match validateAll f xs with
      | .error e => .error e
      | .ok as => .ok (a :: as)

/-- Dispatch on the `cast` argument (`request.py:407-420`): a list cast validates
every element; a `ListResponse` cast does the same and wraps the list; a `None` cast
returns `None`; every other cast (a single record type or `FileHTTPResponse`) returns
the extracted payload unchanged — the single-record validation at `request.py:417-419`
is commented out in the source. -/
def castResult (cast : Cast α) (data : JsonValue) : Except ApiErr (RespResult α) :=
  match cast with
  | .listOf c =>
    match jsonElems data with
    | .error e => .error e
    | .ok items =>
      match validateAll c.validate items with
      | .error e => .error e
      | .ok xs => .ok (.listResult xs)
  | .listResponse c =>
    match jsonElems data with
    | .error e => .error e
    | .ok items =>
      match validateAll c.validate items with
      | .error e => .error e
      | .ok xs => .ok (.listResponseResult xs)
  | .noneCast => .ok .noneResult
  | .single _ => .ok (.raw data)
  | .fileCast => .ok (.raw data)

/-- Error raising of `_parse_response` on the mapper output (`request.py:399-406`):
a positive code raises `AiAgentPlatformAPIError(code, msg, logid)`; an absent code
with a non-empty message raises `AiAgentPlatformPKCEAuthError` when the message is a
recognized PKCE auth-failure identifier and `AiAgentPlatformAPIError(None, msg,
logid)` otherwise. -/
def raiseForError (pkceEnums : List String) (code : Option Int) (msg : JsonValue)
    (logid : Option String) : Except ApiErr Unit :=
  match code with
  | some c => if c > 0 then .error (.apiError (some c) msg logid) else .ok ()
  | none =>
    if !msg.isEmptyStr then
      match msg with
      | .str s =>
        if pkceEnums.contains s then .error (.pkceAuthError s logid)
        else .error (.apiError none (.str s) logid)
      | m => .error (.apiError none m logid)
    else .ok ()

/-- Non-streaming tail of `_parse_response` (`request.py:397-420`): run the error
mapper over the buffered, parsed body, raise when it reports a failure, then dispatch
on the cast. -/
def handleNonStream (pkceEnums : List String) (response : RawResponse) (cast : Cast α)
    (data_field : String) : Except ApiErr (RespResult α) :=
  match parse_requests_code_msg pkceEnums response data_field with
  | .error e => .error e
  | .ok (code, msg, data) =>
    match raiseForError pkceEnums code msg response.logid with
    | .error e => .error e
    | .ok _ => castResult cast data

/-- Embedding of `Requester._parse_response` (`request.py:374-420`): classify by the
lower-cased content-type header — `event-stream` substring first (returning a stream
handle and ignoring the cast), then `audio` substring on a non-empty content type
(returning a file response without parsing the body), otherwise parse the body and
run the error mapper and cast dispatch. -/
def parse_response (pkceEnums : List String) (response : RawResponse) (cast : Cast α)
    (data_field : String) (is_async : Bool) : Except ApiErr (RespResult α) :=
  if strContains (respContentType response) "event-stream" then
    .ok (.stream is_async)
  else if respContentType response != "" && strContains (respContentType response) "audio" then
    .ok .file
  else handleNonStream pkceEnums response cast data_field

/-- Netloc and path of a parsed URL, as returned by `urllib.parse.urlparse`
(an external library; the parsing function is passed in as a parameter below). -/
structure UrlParts where
  netloc : String
  path : String

/-- Authentication credential object as `Requester.make_request` sees it: its class
name, and its two possible header-mutating effects (`authentication` of `TokenAuth`,
`ak_sk_sign` of `AppAkskAuth`; both classes live in `aiagentplatformpy/auth.py` and
are external collaborators here, modelled as functions from the old header map to the
new one). -/
structure Auth where
  className : String
  authentication : List (String × String) → List (String × String)
  akSkSign : String → String → String → List (String × String) → Option JsonValue →
    List (String × String)

/-- Python `self._auth.__class__.__name__`: the class name of the credential object,
or `"NoneType"` when `auth` is `None`. -/
def authClassName : Option Auth → String
  | none => "NoneType"
  | some a => a.className

/-- The `HTTPRequest` descriptor built by `Requester.make_request`
(`request.py:86-96`). -/
structure HTTPRequest (α : Type) where
  method : String
  url : String
  params : Option (List (String × String))
  headers : List (String × String)
  jsonBody : Option JsonValue
  files : Option (List (String × String))
  stream : Bool
  dataField : String
  cast : Cast α

/-- Embedding of `Requester.make_request` (`request.py:53-96`): default the header
map, dispatch authentication by comparing the class name string of the credential
object against `"TokenAuth"` and `"AppAkskAuth"` (`request.py:69-75`; any other class
name, including `"NoneType"` for a missing credential, applies no authentication),
then build the request descriptor. -/
def make_request (urlparse : String → UrlParts) (auth : Option Auth)
    (method url : String) (params : Option (List (String × String)))
    (headers : Option (List (String × String))) (json : Option JsonValue)
    (files : Option (List (String × String))) (cast : Cast α)
    (data_field : String) (stream : Bool) : HTTPRequest α :=
  let headers0 := headers.getD []
  let headers1 :=
    if authClassName auth = "TokenAuth" then
      match auth with
      | some a => a.authentication headers0
      | none => headers0
    else if authClassName auth = "AppAkskAuth" then
      match auth with
      | some a =>
        let parsed := urlparse url
        a.akSkSign method parsed.netloc parsed.path headers0 json
      | none => headers0
    else headers0
  { method := method, url := url, params := params, headers := headers1,
    jsonBody := json, files := files, stream := stream, dataField := data_field,
    cast := cast }

/-- One decoded event-stream frame as `_chat_stream_handler` receives it: the outer
`event` label and the `data:data` payload.  The payload is the result of applying
`json.loads` to the frame text (`Except.error` when that text is not valid JSON). -/
structure Frame where
  event : String
  dataData : Except Unit JsonValue

/-- Chat event record built by `_chat_stream_handler`, polymorphic over the three
validated record types (`Message`, `Chat`, `Knowledge` are pydantic models whose
validators are passed in as parameters). -/
structure ChatEventR (μ χ κ : Type) where
  event : String
  chat : Option χ
  message : Option μ
  knowledge : Option κ

/-- The inner event discriminator strings `_chat_stream_handler` dispatches on
(`aiagentplatformpy/chat/__init__.py:361-382`, using the values of `ChatEventType`):
`error`, the two message events, the four chat events and the two knowledge events.
Any other inner event string falls to the default branch. -/
def recognizedInnerEvents : List String :=
  ["error", "message", "message_end",
   "message_start", "message_output_start", "message_cost", "message_output_end",
   "knowledge_retrieve_end", "knowledge_retrieve"]

/-- Embedding of `_chat_stream_handler` (`aiagentplatformpy/chat/__init__.py:357-387`):
parse the `data:data` payload, read its inner `event` discriminator, raise on
`"error"`, validate the payload as a `Message`, `Chat` or `Knowledge` record for the
recognized discriminators, and return a bare event record for any other string.  A
non-string discriminator compares unequal to every `ChatEventType` value and reaches
`ChatEvent(event=_event)` in the default branch, where the pydantic `event: str`
field rejects it. -/
def chat_stream_handler (vMsg : JsonValue → Except ApiErr μ)
    (vChat : JsonValue → Except ApiErr χ) (vKnow : JsonValue → Except ApiErr κ)
    (frame : Frame) : Except ApiErr (ChatEventR μ χ κ) :=
  match frame.dataData with
  | .error _ => .error .jsonDecodeError
  | .ok eventData =>
    match eventData.item "event" with
    | .error e => .error e
    | .ok innerVal =>
      match innerVal with
      | .str s =>
        if s = "error" then .error (.streamError eventData)
        else if s = "message" || s = "message_end" then
          match vMsg eventData with
          | .error e => .error e
          | .ok m => .ok { event := s, chat := none, message := some m, knowledge := none }
        else if s = "message_start" || s = "message_output_start" || s = "message_cost"
            || s = "message_output_end" then
          match vChat eventData with
          | .error e => .error e
          | .ok c => .ok { event := s, chat := some c, message := none, knowledge := none }
        else if s = "knowledge_retrieve_end" || s = "knowledge_retrieve" then
          match vKnow eventData with
          | .error e => .error e
          | .ok k => .ok { event := s, chat := none, message := none, knowledge := some k }
        else .ok { event := s, chat := none, message := none, knowledge := none }
      | _ => .error .validationError

/-- Modelled from the spec: the decode loop of the Stream Handle
(`aiagentplatformpy/model.py` defines the `Stream` class but is not among the
provided sources).  Per section 4.6 and 4.7 of the spec, the handle applies the frame
handler to the received frames strictly in order, yields each produced event to the
consumer, and on a handler-raised terminal error stops at once: the pair holds the
events yielded before the error and the terminal error, if any; no event from the
failing frame or any later frame is yielded. -/
def decodeStream (h : Frame → Except ApiErr E) : List Frame → List E × Option ApiErr
  | [] => ([], none)
  | f :: fs =>
    match h f with
    | .error e => ([], some e)
    | .ok ev =>
      let r := decodeStream h fs
      (ev :: r.1, r.2)

/-- Success payload of the error mapper as the spec describes it (section 4.5, rules
4-6): a page descriptor when `first_id` is present, the
`{data, debug_url, execute_id}` record when `debug_url` is present, otherwise the
requested data field; a two-level unwrap for the literal data-field path
`"data.data"`; the whole body as fallback. -/
def expectedSuccessPayload (data_field : String) (body : JsonValue) : JsonValue :=
  if body.containsKey data_field || body.containsKey "debug_url" then
    if body.containsKey "first_id" then
      .obj [("first_id", body.get "first_id"), ("has_more", body.get "has_more"),
            ("last_id", body.get "last_id"), ("items", body.get "data")]
    else if body.containsKey "debug_url" then
      .obj [("data", body.get data_field),
            ("debug_url", pyOr (body.get "debug_url") (.str "")),
            ("execute_id", pyOr (body.get "execute_id") .null)]
    else body.get data_field
  else if data_field = "data.data" then
    (body.get "data").get "data"
  else body

/-- Record type with one string field, used as a concrete cast target in the
witnesses (it plays the role of a pydantic model such as `Chat`). -/
structure IdRec where
  id : String

/-- Concrete validator for `IdRec`: accepts an object whose `id` field is a string. -/
def idCaster : Caster IdRec :=
  ⟨fun v =>
    match v.getField "id" with
    | some (.str s) => .ok ⟨s⟩
    | _ => .error .validationError⟩

/-- Concrete body of the C1 witness. -/
def c1Body : JsonValue :=
  .obj [("code", .int 5), ("msg", .str "boom"), ("data", .obj [("id", .str "c1")])]

/-- Concrete response of the C1 witness. -/
def c1Response : RawResponse :=
  { contentType := some "application/json", logid := some "L1", body := .ok c1Body,
    status := 200, text := "raw" }

/-- Concrete body of the C2 witness: the page-descriptor success variant. -/
def c2Body : JsonValue :=
  .obj [("first_id", .str "f"), ("has_more", .bool true), ("last_id", .str "l"),
        ("data", .arr [.str "x"])]

/-- Concrete response of the C2 witness. -/
def c2Response : RawResponse :=
  { contentType := some "application/json", logid := none, body := .ok c2Body,
    status := 200, text := "" }

/-- Scenario body of C3: `{"code":0,"msg":"","data":{"id":"c1"}}`. -/
def c3Body : JsonValue :=
  .obj [("code", .int 0), ("msg", .str ""), ("data", .obj [("id", .str "c1")])]

/-- Response carrying the C3 scenario body. -/
def c3Response : RawResponse :=
  { contentType := some "application/json", logid := none, body := .ok c3Body,
    status := 200, text := "" }

/-- Concrete response of the C4 witness: the payload list holds one valid and one
invalid element. -/
def c4Response : RawResponse :=
  { contentType := some "application/json", logid := none,
    body := .ok (.obj [("data", .arr [.obj [("id", .str "a")], .int 5])]),
    status := 200, text := "" }

/-- Event-stream response of the C5 witness, with mixed-case content type. -/
def c5StreamResponse : RawResponse :=
  { contentType := some "Text/Event-Stream; charset=utf-8", logid := none,
    body := .error (), status := 200, text := "" }

/-- Audio response of the C5 witness. -/
def c5AudioResponse : RawResponse :=
  { contentType := some "audio/mpeg", logid := none, body := .error (),
    status := 200, text := "" }

/-- Scenario body of the C6 witness: `{"error_code":"invalid_grant"}`. -/
def c6Body : JsonValue :=
  .obj [("error_code", .str "invalid_grant")]

/-- Response carrying the C6 scenario body. -/
def c6Response : RawResponse :=
  { contentType := some "application/json", logid := some "L6", body := .ok c6Body,
    status := 401, text := "" }

/-- Validator used by the stream witnesses; it rejects everything, which shows that
the claimed paths never attempt a payload parse. -/
def vUnit : JsonValue → Except ApiErr Unit := fun _ => .error .validationError

/-- Frame with an unrecognized inner event, for the C8 witness. -/
def c8Frame : Frame :=
  { event := "message", dataData := .ok (.obj [("event", .str "my_custom")]) }

/-- Second frame with an unrecognized inner event, used as a successfully decoded
neighbour frame in the C7 and C8 witnesses. -/
def c8Good : Frame :=
  { event := "message", dataData := .ok (.obj [("event", .str "also_custom")]) }

/-- Frame whose inner event is `"error"`, for the C7 witness. -/
def c7ErrFrame : Frame :=
  { event := "message", dataData := .ok (.obj [("event", .str "error"), ("code", .int 7)]) }

/-- Response of the C9 witness: the body is not parseable JSON. -/
def c9Response : RawResponse :=
  { contentType := some "text/html", logid := some "L9", body := .error (),
    status := 502, text := "Bad Gateway" }

/-- Trivial URL parser for the C10 witness (the unauthenticated branch never calls
it). -/
def noUrlParse : String → UrlParts := fun _ => { netloc := "", path := "" }

/-- Subscripting a key known to be present returns the same value as `dict.get`. -/
theorem item_of_containsKey {body : JsonValue} {k : String}
    (h : body.containsKey k = true) : body.item k = .ok (body.get k) := by
  cases body <;> simp [JsonValue.containsKey, JsonValue.getField] at h
  rename_i fs
  rcases Option.isSome_iff_exists.mp h with ⟨v, hv⟩
  simp [JsonValue.item, JsonValue.get, JsonValue.getField, hv]

/-- Subscripting returns the value reported by `getField`. -/
theorem item_of_getField {body v : JsonValue} {k : String}
    (h : body.getField k = some v) : body.item k = .ok v := by
  cases body <;> simp [JsonValue.getField] at h
  rename_i fs
  simp [JsonValue.item, h]

/-- The `dict.get` value of a field reported by `getField`. -/
theorem get_of_getField {body v : JsonValue} {k : String}
    (h : body.getField k = some v) : body.get k = v := by
  simp [JsonValue.get, h]

/-- A field reported by `getField` makes `containsKey` true. -/
theorem containsKey_of_getField {body v : JsonValue} {k : String}
    (h : body.getField k = some v) : body.containsKey k = true := by
  simp [JsonValue.containsKey, h]

/-- Left-to-right validation fails whenever some element fails to validate. -/
theorem validateAll_error_of_mem {f : JsonValue → Except ApiErr α}
    {l : List JsonValue} {x : JsonValue} {e : ApiErr}
    (hx : x ∈ l) (hfx : f x = .error e) :
    ∃ e2, validateAll f l = .error e2 := by
  induction l with
  | nil => cases hx
  | cons y ys ih =>
    cases hfy : f y with
    | error e0 => exact ⟨e0, by simp [validateAll, hfy]⟩
    | ok a =>
      rcases List.mem_cons.mp hx with hxy | hxs
      · subst hxy; rw [hfx] at hfy; cases hfy
      · rcases ih hxs with ⟨e2, h2⟩
        exact ⟨e2, by simp [validateAll, hfy, h2]⟩

/-- C1: every parsed non-streaming, non-binary response whose body carries a numeric
`code` field greater than zero together with a `msg` field makes the call raise
`AiAgentPlatformAPIError` with exactly that code, the message of the body and the
trace id header, whatever other fields the body has (`request.py:436-437,399-401`). -/
theorem c1_positive_code_raises_api_error (pkceEnums : List String)
    (response : RawResponse) (cast : Cast α) (data_field : String) (is_async : Bool)
    (body : JsonValue) (c : Int)
    (hstream : strContains (respContentType response) "event-stream" = false)
    (haudio : (respContentType response != "" &&
      strContains (respContentType response) "audio") = false)
    (hbody : response.body = .ok body)
    (hcode : body.getField "code" = some (.int c))
    (hpos : 0 < c)
    (hmsg : body.containsKey "msg" = true) :
    parse_response pkceEnums response cast data_field is_async =
      .error (.apiError (some c) (body.get "msg") response.logid) := by
  have hck : body.containsKey "code" = true := containsKey_of_getField hcode
  have hgc : body.get "code" = .int c := get_of_getField hcode
  simp only [parse_response, hstream, haudio, Bool.false_eq_true, if_false]
  simp only [handleNonStream, parse_requests_code_msg, hbody, parseBodyCodeMsg,
    hck, hmsg, Bool.and_self, if_true, hgc, pyInt, hpos, if_pos]
  simp [raiseForError, hpos]

/-- C1 witness: the body `{"code":5,"msg":"boom","data":{"id":"c1"}}` raises
`AiAgentPlatformAPIError(5, "boom", "L1")`. -/
theorem c1_witness :
    parse_response [] c1Response (Cast.noneCast : Cast Unit) "data" false =
      .error (.apiError (some 5) (.str "boom") (some "L1")) := by
  exact c1_positive_code_raises_api_error [] c1Response _ "data" false c1Body 5
    rfl rfl rfl rfl (by norm_num) rfl

/-- C2: every well-formed success body — an object matching none of the three error
rules, whose `code` converts to a non-positive integer when both `code` and `msg` are
present, with the page fields present when the `first_id` variant applies, and with a
nested object under `data` when the two-level `"data.data"` path applies — makes the
error mapper return code `0`, message `""` and exactly the payload the spec
prescribes for the matching success variant, without raising; the second conjunct
records that the code `0` it returns never fires the raising step of
`_parse_response`. -/
theorem c2_success_bodies_map_to_payload (pkceEnums : List String)
    (response : RawResponse) (data_field : String) (body : JsonValue)
    (hbody : response.body = .ok body)
    (_hobj : body.isObj = true)
    (h1 : (body.containsKey "code" && body.containsKey "msg") = true →
      ∃ c, pyInt (body.get "code") = .ok c ∧ c ≤ 0)
    (h2 : (body.containsKey "error_code" &&
      jsonStrMem (body.get "error_code") pkceEnums) = false)
    (h3 : (body.containsKey "error_message" &&
      !(body.get "error_message").isEmptyStr) = false)
    (h4 : (body.containsKey data_field || body.containsKey "debug_url") = true →
      body.containsKey "first_id" = true →
      (body.containsKey "has_more" && (body.containsKey "last_id" &&
        body.containsKey "data")) = true)
    (h5 : (body.containsKey data_field || body.containsKey "debug_url") = false →
      data_field = "data.data" →
      ∃ inner, body.getField "data" = some inner ∧
        (inner.getField "data").isSome = true) :
    parse_requests_code_msg pkceEnums response data_field =
      .ok (some 0, .str "", expectedSuccessPayload data_field body) ∧
    raiseForError pkceEnums (some 0) (.str "") response.logid = .ok () := by
  refine ⟨?_, rfl⟩
  have hrule4 : parseCodeMsgRule4 data_field body =
      .ok (some 0, .str "", expectedSuccessPayload data_field body) := by
    by_cases hdp : (body.containsKey data_field || body.containsKey "debug_url") = true
    · by_cases hf : body.containsKey "first_id" = true
      · have hrest := h4 hdp hf
        obtain ⟨hm, hl, hda⟩ : _ ∧ _ ∧ _ := by simpa using hrest
        simp [parseCodeMsgRule4, expectedSuccessPayload, hdp, hf,
          item_of_containsKey hf, item_of_containsKey hm,
          item_of_containsKey hl, item_of_containsKey hda]
      · by_cases hdbg : body.containsKey "debug_url" = true
        · simp [parseCodeMsgRule4, expectedSuccessPayload, hdp, hf, hdbg]
        · have hdf : body.containsKey data_field = true := by
            have hor : body.containsKey data_field = true ∨
                body.containsKey "debug_url" = true := by simpa using hdp
            rcases hor with h | h
            · exact h
            · exact absurd h hdbg
          simp [parseCodeMsgRule4, expectedSuccessPayload, hdp, hf, hdbg, hdf,
            item_of_containsKey hdf]
    · by_cases hdd : data_field = "data.data"
      · subst hdd
        rcases h5 (by simpa using hdp) rfl with ⟨inner, hinner, hinner2⟩
        rcases Option.isSome_iff_exists.mp hinner2 with ⟨v, hv⟩
        simp [parseCodeMsgRule4, parseCodeMsgDataData, expectedSuccessPayload,
          hdp, item_of_getField hinner, item_of_getField hv,
          get_of_getField hinner, get_of_getField hv]
      · simp [parseCodeMsgRule4, parseCodeMsgDataData, expectedSuccessPayload,
          hdp, hdd]
  have hrule23 : parseCodeMsgRule23 pkceEnums data_field body =
      .ok (some 0, .str "", expectedSuccessPayload data_field body) := by
    simp [parseCodeMsgRule23, h2, h3, hrule4]
  simp only [parse_requests_code_msg, hbody]
  by_cases hcm : (body.containsKey "code" && body.containsKey "msg") = true
  · rcases h1 hcm with ⟨c, hc, hle⟩
    have hnotpos : ¬ c > 0 := by omega
    simp [parseBodyCodeMsg, hcm, hc, hnotpos, hrule23]
  · simp [parseBodyCodeMsg, hcm, hrule23]

/-- C2 witness: the page-descriptor body
`{"first_id":"f","has_more":true,"last_id":"l","data":["x"]}` maps to the page
payload `{first_id, has_more, last_id, items}` with code `0` and empty message. -/
theorem c2_witness :
    parse_requests_code_msg [] c2Response "data" =
      .ok (some 0, .str "",
        .obj [("first_id", .str "f"), ("has_more", .bool true),
              ("last_id", .str "l"), ("items", .arr [.str "x"])]) := by
  have h := (c2_success_bodies_map_to_payload [] c2Response "data" c2Body rfl rfl
    (fun h => absurd h (by decide))
    rfl rfl
    (fun _ _ => by decide)
    (fun h => absurd h (by decide))).1
  exact h

/-- C3 (bug in the code): on the scenario body `{"code":0,"msg":"","data":{"id":"c1"}}`
with data-field-path `"data"` and a single-record cast, the source returns the raw
extracted dict unchanged instead of converting it into the requested record shape:
the single-record validation at `request.py:417-419` is commented out, so the cast
argument is ignored on this path — even though, as the second conjunct shows,
validating the payload into the requested record would have succeeded and produced
the record with `id = "c1"`.  (The non-streaming chat caller at
`aiagentplatformpy/chat/__init__.py:592` immediately reads attributes of the value
this path returns, which a plain dict does not have.) -/
theorem c3_single_cast_returns_raw_payload :
    parse_response [] c3Response (Cast.single idCaster) "data" false =
      .ok (.raw (.obj [("id", .str "c1")])) ∧
    idCaster.validate (.obj [("id", .str "c1")]) = .ok ⟨"c1"⟩ :=
  ⟨rfl, rfl⟩

/-- C4: for a successful non-streaming call with a plain-list cast whose extracted
payload is a list, every element is validated independently
(`request.py:407-409`): if any single element fails to validate, the whole call fails
with an error and no partial list is returned, and if every element validates, the
call returns exactly the full list of validated records. -/
theorem c4_list_cast_validates_elementwise (pkceEnums : List String)
    (response : RawResponse) (data_field : String) (is_async : Bool)
    (cst : Caster α) (items : List JsonValue)
    (hstream : strContains (respContentType response) "event-stream" = false)
    (haudio : (respContentType response != "" &&
      strContains (respContentType response) "audio") = false)
    (hmap : parse_requests_code_msg pkceEnums response data_field =
      .ok (some 0, .str "", .arr items)) :
    (∀ x ∈ items, ∀ e, cst.validate x = .error e →
      ∃ e2, parse_response pkceEnums response (Cast.listOf cst) data_field is_async =
        .error e2) ∧
    (∀ rs, validateAll cst.validate items = .ok rs →
      parse_response pkceEnums response (Cast.listOf cst) data_field is_async =
        .ok (.listResult rs)) := by
  have hred : parse_response pkceEnums response (Cast.listOf cst) data_field is_async =
      castResult (Cast.listOf cst) (.arr items) := by
    simp [parse_response, hstream, haudio, handleNonStream, hmap, raiseForError]
  constructor
  · intro x hx e hfx
    rcases validateAll_error_of_mem hx hfx with ⟨e2, h2⟩
    exact ⟨e2, by simp [hred, castResult, jsonElems, h2]⟩
  · intro rs hrs
    simp [hred, castResult, jsonElems, hrs]

/-- C4 witness: the payload `[{"id":"a"}, 5]` contains an element the `IdRec`
validator rejects, so the whole list call fails. -/
theorem c4_witness :
    ∃ e2, parse_response [] c4Response (Cast.listOf idCaster) "data" false =
      .error e2 := by
  have h := (c4_list_cast_validates_elementwise [] c4Response "data" false idCaster
    [.obj [("id", .str "a")], .int 5] rfl rfl rfl).1
  exact h (.int 5) (List.mem_cons_of_mem _ (List.mem_cons_self _ _))
    .validationError rfl

/-- C5: classification precedence of `_parse_response` on the lower-cased
content-type header (`request.py:386-396`), first match wins: an `event-stream`
substring returns a stream handle over the line source for every cast (the
expected-result-kind is ignored); otherwise an `audio` substring on a non-empty
content type wraps the response as a file response with no body parsing (the
conclusion does not depend on the body); otherwise the body is parsed and handed to
the error mapper and cast dispatch. -/
theorem c5_classification_precedence (pkceEnums : List String)
    (response : RawResponse) (cast : Cast α) (data_field : String) (is_async : Bool) :
    (strContains (respContentType response) "event-stream" = true →
      parse_response pkceEnums response cast data_field is_async =
        .ok (.stream is_async)) ∧
    (strContains (respContentType response) "event-stream" = false →
      (respContentType response != "" &&
        strContains (respContentType response) "audio") = true →
      parse_response pkceEnums response cast data_field is_async = .ok .file) ∧
    (strContains (respContentType response) "event-stream" = false →
      (respContentType response != "" &&
        strContains (respContentType response) "audio") = false →
      parse_response pkceEnums response cast data_field is_async =
        handleNonStream pkceEnums response cast data_field) := by
  refine ⟨fun h => ?_, fun h h2 => ?_, fun h h2 => ?_⟩
  · simp [parse_response, h]
  · simp [parse_response, h, h2]
  · simp [parse_response, h, h2]

/-- C5 witness: a mixed-case `Text/Event-Stream` content type is classified as a
stream (for an arbitrary cast, here `None`), and an `audio/mpeg` content type as a
file response, both without touching the (here unparseable) body. -/
theorem c5_witness :
    parse_response [] c5StreamResponse (Cast.noneCast : Cast Unit) "data" false =
      .ok (.stream false) ∧
    parse_response [] c5AudioResponse (Cast.noneCast : Cast Unit) "data" false =
      .ok .file := by
  constructor
  · exact (c5_classification_precedence [] c5StreamResponse
      (Cast.noneCast : Cast Unit) "data" false).1 (by decide)
  · exact (c5_classification_precedence [] c5AudioResponse
      (Cast.noneCast : Cast Unit) "data" false).2.1 (by decide) (by decide)

/-- C6: a parsed body that does not fire the `code`/`msg` rule and whose
`error_code` field is one of the recognized auth-failure identifiers (a non-empty
string of the fixed set, here the parameter `pkceEnums`) makes the call raise
`AiAgentPlatformPKCEAuthError` whose type is exactly that identifier, with the trace
id header (`request.py:438-439,402-405`). -/
theorem c6_error_code_raises_auth_error (pkceEnums : List String)
    (response : RawResponse) (cast : Cast α) (data_field : String) (is_async : Bool)
    (body : JsonValue) (s : String)
    (hstream : strContains (respContentType response) "event-stream" = false)
    (haudio : (respContentType response != "" &&
      strContains (respContentType response) "audio") = false)
    (hbody : response.body = .ok body)
    (h1 : (body.containsKey "code" && body.containsKey "msg") = true →
      ∃ c, pyInt (body.get "code") = .ok c ∧ c ≤ 0)
    (hec : body.getField "error_code" = some (.str s))
    (hs : s ∈ pkceEnums)
    (hne : s ≠ "") :
    parse_response pkceEnums response cast data_field is_async =
      .error (.pkceAuthError s response.logid) := by
  have hck : body.containsKey "error_code" = true := containsKey_of_getField hec
  have hgc : body.get "error_code" = .str s := get_of_getField hec
  have hmap : parse_requests_code_msg pkceEnums response data_field =
      .ok (none, .str s, .null) := by
    simp only [parse_requests_code_msg, hbody]
    by_cases hcm : (body.containsKey "code" && body.containsKey "msg") = true
    · rcases h1 hcm with ⟨c, hc, hle⟩
      have hnotpos : ¬ c > 0 := by omega
      simp [parseBodyCodeMsg, hcm, hc, hnotpos, parseCodeMsgRule23, hck, hgc,
        jsonStrMem, hs]
    · simp [parseBodyCodeMsg, hcm, parseCodeMsgRule23, hck, hgc, jsonStrMem, hs]
  simp [parse_response, hstream, haudio, handleNonStream, hmap, raiseForError,
    JsonValue.isEmptyStr, hne, hs]

/-- C6 witness: the scenario body `{"error_code":"invalid_grant"}`, with
`"invalid_grant"` among the recognized identifiers, raises the auth error with type
`invalid_grant` and the trace id `L6`. -/
theorem c6_witness :
    parse_response ["invalid_grant"] c6Response (Cast.noneCast : Cast Unit) "data"
      false = .error (.pkceAuthError "invalid_grant" (some "L6")) := by
  exact c6_error_code_raises_auth_error ["invalid_grant"] c6Response _ "data" false
    c6Body "invalid_grant" rfl rfl rfl (fun h => absurd h (by decide)) rfl
    (by decide) (by decide)

/-- C7: a frame whose inner JSON event discriminator is `"error"` makes
`_chat_stream_handler` raise at once
(`aiagentplatformpy/chat/__init__.py:361-362`), and the decode loop of the stream
handle then terminates with that terminal error: the events yielded to the consumer
are exactly those of the frames before the failing one, and no event from the
failing frame or any later frame is yielded. -/
theorem c7_error_event_halts_stream (vMsg : JsonValue → Except ApiErr μ)
    (vChat : JsonValue → Except ApiErr χ) (vKnow : JsonValue → Except ApiErr κ)
    (pre post : List Frame) (f : Frame) (eventData : JsonValue)
    (hload : f.dataData = .ok eventData)
    (hev : eventData.item "event" = .ok (.str "error"))
    (hpre : ∀ g ∈ pre, ∃ ev, chat_stream_handler vMsg vChat vKnow g = .ok ev) :
    decodeStream (chat_stream_handler vMsg vChat vKnow) (pre ++ f :: post) =
      ((decodeStream (chat_stream_handler vMsg vChat vKnow) pre).1,
        some (.streamError eventData)) := by
  have hf : chat_stream_handler vMsg vChat vKnow f = .error (.streamError eventData) := by
    simp [chat_stream_handler, hload, hev]
  induction pre with
  | nil => simp [decodeStream, hf]
  | cons g gs ih =>
    obtain ⟨ev, hg⟩ := hpre g (List.mem_cons_self _ _)
    have ih2 := ih (fun g2 hg2 => hpre g2 (List.mem_cons_of_mem _ hg2))
    simp [decodeStream, hg, ih2]

/-- C7 witness: in the frame list [unrecognized, error, unrecognized], only the
event of the first frame is yielded and the decode terminates with the stream error
carrying the payload of the error frame; nothing from the error frame or the frame
after it appears. -/
theorem c7_witness :
    decodeStream (chat_stream_handler vUnit vUnit vUnit) [c8Good, c7ErrFrame, c8Good] =
      ([{ event := "also_custom", chat := none, message := none, knowledge := none }],
        some (.streamError (.obj [("event", .str "error"), ("code", .int 7)]))) := by
  have h := c7_error_event_halts_stream vUnit vUnit vUnit [c8Good] [c8Good] c7ErrFrame
    (.obj [("event", .str "error"), ("code", .int 7)]) rfl rfl
    (fun g hg => by
      rw [List.mem_singleton] at hg
      subst hg
      exact ⟨_, rfl⟩)
  exact h

/-- C8: a frame whose inner event discriminator is a string outside the recognized
set makes `_chat_stream_handler` return an event record carrying exactly that
discriminator with no parsed payload — it does not call any of the three payload
validators, since they are universally quantified here — it does not raise, and the
decode loop yields it and continues with the remaining frames unchanged
(`aiagentplatformpy/chat/__init__.py:383-386`). -/
theorem c8_unrecognized_event_yields_and_continues (vMsg : JsonValue → Except ApiErr μ)
    (vChat : JsonValue → Except ApiErr χ) (vKnow : JsonValue → Except ApiErr κ)
    (s : String) (f : Frame) (rest : List Frame) (eventData : JsonValue)
    (hload : f.dataData = .ok eventData)
    (hev : eventData.item "event" = .ok (.str s))
    (hs : s ∉ recognizedInnerEvents) :
    chat_stream_handler vMsg vChat vKnow f =
      .ok { event := s, chat := none, message := none, knowledge := none } ∧
    decodeStream (chat_stream_handler vMsg vChat vKnow) (f :: rest) =
      ({ event := s, chat := none, message := none, knowledge := none } ::
        (decodeStream (chat_stream_handler vMsg vChat vKnow) rest).1,
        (decodeStream (chat_stream_handler vMsg vChat vKnow) rest).2) := by
  simp only [recognizedInnerEvents, List.mem_cons, List.mem_singleton, not_or] at hs
  obtain ⟨hs1, hs2, hs3, hs4, hs5, hs6, hs7, hs8, hs9⟩ := hs
  have hh : chat_stream_handler vMsg vChat vKnow f =
      .ok { event := s, chat := none, message := none, knowledge := none } := by
    simp [chat_stream_handler, hload, hev, hs1, hs2, hs3, hs4, hs5, hs6, hs7, hs8, hs9]
  exact ⟨hh, by simp [decodeStream, hh]⟩

/-- C8 witness: the inner event `"my_custom"` is outside the recognized set; the
handler yields an event record with that discriminator even under validators that
reject every payload, and the following frame still decodes. -/
theorem c8_witness :
    chat_stream_handler vUnit vUnit vUnit c8Frame =
      .ok { event := "my_custom", chat := none, message := none, knowledge := none } ∧
    decodeStream (chat_stream_handler vUnit vUnit vUnit) [c8Frame, c8Good] =
      ([{ event := "my_custom", chat := none, message := none, knowledge := none },
        { event := "also_custom", chat := none, message := none, knowledge := none }],
        none) := by
  have h := c8_unrecognized_event_yields_and_continues vUnit vUnit vUnit "my_custom"
    c8Frame [c8Good] (.obj [("event", .str "my_custom")]) rfl rfl (by decide)
  exact ⟨h.1, h.2.trans rfl⟩

/-- C9: a non-streaming, non-binary response whose body is not parseable JSON makes
the call fail with `AiAgentPlatformAPIError` whose code is the raw HTTP status code,
whose message is the raw response text and whose trace id comes from the dedicated
response header (`request.py:425-434`); it is never treated as success and no other
error shape is produced. -/
theorem c9_unparseable_body_raises_api_error (pkceEnums : List String)
    (response : RawResponse) (cast : Cast α) (data_field : String) (is_async : Bool)
    (hstream : strContains (respContentType response) "event-stream" = false)
    (haudio : (respContentType response != "" &&
      strContains (respContentType response) "audio") = false)
    (hbody : response.body = .error ()) :
    parse_response pkceEnums response cast data_field is_async =
      .error (.apiError (some response.status) (.str response.text) response.logid) := by
  simp [parse_response, hstream, haudio, handleNonStream, parse_requests_code_msg,
    hbody]

/-- C9 witness: a `text/html` 502 response with unparseable body fails with
`AiAgentPlatformAPIError(502, "Bad Gateway", "L9")`. -/
theorem c9_witness :
    parse_response [] c9Response (Cast.noneCast : Cast Unit) "data" false =
      .error (.apiError (some 502) (.str "Bad Gateway") (some "L9")) := by
  exact c9_unparseable_body_raises_api_error [] c9Response _ "data" false rfl rfl rfl

/-- C10: `Requester.make_request` dispatches authentication by the class name string
of the credential object (`request.py:69-75`); when that name is neither
`"TokenAuth"` nor `"AppAkskAuth"` — including a missing credential, whose class name
is `"NoneType"` — no authentication step is applied: the header map is left exactly
as supplied (after the `None` default), no error is raised (the function is total and
returns), and the request descriptor is still built with all the supplied fields, to
be dispatched unauthenticated. -/
theorem c10_unmatched_auth_class_skips_authentication (urlparse : String → UrlParts)
    (auth : Option Auth) (method url : String)
    (params : Option (List (String × String)))
    (headers : Option (List (String × String))) (json : Option JsonValue)
    (files : Option (List (String × String))) (cast : Cast α)
    (data_field : String) (stream : Bool)
    (h1 : authClassName auth ≠ "TokenAuth")
    (h2 : authClassName auth ≠ "AppAkskAuth") :
    make_request urlparse auth method url params headers json files cast data_field
      stream =
      { method := method, url := url, params := params, headers := headers.getD [],
        jsonBody := json, files := files, stream := stream, dataField := data_field,
        cast := cast } := by
  simp [make_request, h1, h2]

/-- C10 witness: with `auth = None` (class name `"NoneType"`), the supplied header
map comes through unchanged and the descriptor carries all the original fields. -/
theorem c10_witness :
    make_request noUrlParse none "POST" "https://host/path" none
      (some [("k", "v")]) none none (Cast.noneCast : Cast Unit) "data" false =
      { method := "POST", url := "https://host/path", params := none,
        headers := [("k", "v")], jsonBody := none, files := none, stream := false,
        dataField := "data", cast := (Cast.noneCast : Cast Unit) } := by
  exact c10_unmatched_auth_class_skips_authentication noUrlParse none "POST"
    "https://host/path" none (some [("k", "v")]) none none
    (Cast.noneCast : Cast Unit) "data" false (by decide) (by decide)

end ResumeMiner
